import Mathlib

/-!
Verification development for the HybridCutMix training repository
(`train.py`, `utils/trainer.py`).

The per-epoch training loops are shallowly embedded as state-passing
functions over an abstract semantic signature (`Sem`): tensor-level
collaborators (the backbone forward pass, the criterion, the external
mask generator `generate_attentive_mask` and `rand_bbox` from
`utils/misc.py`, optimizer and scheduler updates) are abstract function
fields, while every piece of control flow, cache lifecycle, metric
accumulation, coefficient arithmetic, and optimizer-call sequencing in
`utils/trainer.py` is embedded concretely, statement by statement.
Scalars are rationals; gradients are abstracted to a scalar summary that
is accumulated additively, matching autograd's additive `.grad` buffers.
-/

/-! ### Label-mixing coefficients (`utils/trainer.py` lines 76-77, 96, 201, 217, 340-344) -/

/-- Embeds `n_mix = (radius + 1) ** 2`, trainer.py line 76. -/
def n_mix (radius : ℕ) : ℕ := (radius + 1) ^ 2

/-- Embeds `mix_ratio = n_mix/(W_f*H_f)`, trainer.py line 77. -/
def mix_ratio (radius Wf Hf : ℕ) : ℚ := (n_mix radius : ℚ) / ((Wf * Hf : ℕ) : ℚ)

/-- Python-style mean of a list of scalars: `xs.mean()` (sum divided by length). -/
def pyMean (xs : List ℚ) : ℚ := xs.sum / (xs.length : ℚ)

/-- Modelled from the spec: `generate_attentive_mask` lives in `utils/misc.py`,
which is not part of the sources; the spec §3 states an AttentionMask is a
"per-sample binary (0/1) 2D mask".  We model one sample's stage-resolution mask
as a flattened list of booleans (`true` = pixel value 1). -/
abbrev AttnMask : Type := List Bool

/-- Embeds `n_non_zero_pixels = attention_masks.sum(dim=1).sum(dim=1)` for one sample,
trainer.py line 196: the number of 1-entries of the binary mask. -/
def n_non_zero_pixels (m : AttnMask) : ℕ := m.count true

/-- Embeds `(1 - (n_non_zero_pixels/n_total_pixels)).mean()`, trainer.py line 201,
expressed over the per-sample non-zero pixel counts of the mask batch. -/
def occRatioOfCounts (counts : List ℕ) (n_total_pixels : ℕ) : ℚ :=
  pyMean (counts.map (fun (c : ℕ) => 1 - (c : ℚ) / (n_total_pixels : ℚ)))

/-- Embeds `occlusion_ratio = (1 - (n_non_zero_pixels/n_total_pixels)).mean()`,
trainer.py line 201, over the per-sample masks of a batch. -/
def occlusion_ratio (masks : List AttnMask) (n_total_pixels : ℕ) : ℚ :=
  occRatioOfCounts (masks.map n_non_zero_pixels) n_total_pixels

/-- The two-label mixed loss shape used at trainer.py lines 96, 217 and 344:
`coef * criterion(pred, labelA) + (1 - coef) * criterion(pred, labelB)`. -/
def mixedLoss (coef lossA lossB : ℚ) : ℚ := coef * lossA + (1 - coef) * lossB

/-! ### Blending (`utils/trainer.py` lines 79-83 and 202-206)

An image batch is a family of pixel value maps indexed by a sample index
`σ` and a pixel index `ι` (covering channel and the two spatial axes of the
upsampled mask and image tensors).  `rand_index` is an arbitrary reindexing
of the batch dimension. -/

/-- Embeds `image_a = upsampled_attention_masks * batch`, trainer.py lines 80 / 203. -/
def image_a {σ ι : Type} (mask : σ → ι → ℚ) (batch : σ → ι → ℚ) : σ → ι → ℚ :=
  fun j i => mask j i * batch j i

/-- Embeds `image_b = (1 - upsampled_attention_masks) * batch[rand_index]`,
trainer.py lines 81 / 204. -/
def image_b {σ ι : Type} (mask : σ → ι → ℚ) (batch : σ → ι → ℚ) (rand_index : σ → σ) :
    σ → ι → ℚ :=
  fun j i => (1 - mask j i) * batch (rand_index j) i

/-- Embeds `batch = image_a + image_b`, trainer.py lines 83 / 206. -/
def mixedBatch {σ ι : Type} (mask : σ → ι → ℚ) (batch : σ → ι → ℚ) (rand_index : σ → σ) :
    σ → ι → ℚ :=
  fun j i => image_a mask batch j i + image_b mask batch rand_index j i

/-! ### Configuration dispatch (`train.py` lines 109-116 and 146-160) -/

/-- Python truthiness of a string: only the empty string is falsy, so
`assert s` on a string raises exactly when `s` is empty. -/
def pyStrTruthy (s : String) : Bool := !(s == "")

/-- Python's `sub in hay` substring test on strings. -/
def pyInStr (sub hay : String) : Bool :=
  (List.range (hay.toList.length + 1)).any
    (fun i => (hay.toList.drop i).take sub.toList.length == sub.toList)

/-- The three training strategies dispatched in `train.py`. -/
inductive TrainMode
  | vanilla
  | cutmix
  | hybrid
  deriving DecidableEq, Repr

/-- The `train_mode` dispatch, `train.py` lines 146-160.  The final branch is
`assert 'Invalid training mode !'`, which raises only if its value is falsy.
`none` = AssertionError raised (run halts); `some none` = execution continues
into the epoch body with no training function selected; `some (some m)` =
strategy `m` runs. -/
def trainModeDispatch (train_mode : String) : Option (Option TrainMode) :=
  if train_mode = "vanilla" then some (some TrainMode.vanilla)
  else if train_mode = "cutmix" then some (some TrainMode.cutmix)
  else if train_mode = "hybrid" then some (some TrainMode.hybrid)
  else if pyStrTruthy "Invalid training mode !" then some none
  else none

/-- The `stage_names` selection, `train.py` lines 109-116.  The final branch is
`assert "Unsupported network type !"`, again a truthy-string assert.
`none` = AssertionError; `some none` = execution continues with `stage_names`
unbound; `some (some ns)` = stage names selected. -/
def stageNamesDispatch (net_type : String) : Option (Option (List String)) :=
  if pyInStr "resnet" net_type then
    some (some ["layer1", "layer2", "layer3", "layer4"])
  else if net_type = "mobilenetv2" then
    some (some ["features.2", "features.4", "features.7", "features.14"])
  else if net_type = "vgg16" then
    some (some ["features.4", "features.9", "features.16", "features.24"])
  else if pyStrTruthy "Unsupported network type !" then some none
  else none


/-! ### The training-loop state machine (`utils/trainer.py`)

The per-epoch loops are embedded as folds of a per-batch transition over an
explicit state.  Tensor-level collaborators are an abstract signature `Sem`;
gradients with respect to the parameters are a scalar summary accumulated
additively (`loss.backward()` adds into the `.grad` buffers,
`optimizer.zero_grad()` resets them).  The `Wrapper` activation/gradient
caches are modelled from the spec (§3, §4.1): the class itself is not among
the sources; the spec states forward records the stage activation, backward
records the stage gradient, and `clear_dict` drops both. -/

/-- Optimizer/model call events, recorded in program order. -/
inductive Ev
  | ZeroGrad   -- optimizer.zero_grad()
  | Fwd        -- model(batch)
  | Bwd        -- loss.backward()
  | OptStep    -- optimizer.step()
  | SchedStep  -- scheduler.step()
  | ClearDict  -- model.clear_dict()
  deriving DecidableEq, Repr

/-- Abstract semantics of the tensor-level collaborators.
`P` = model parameters, `O` = optimizer + scheduler internal state,
`A` = a cached stage tensor, `B` = an image batch, `L` = a label batch,
`M` = a stage-resolution attention-mask batch. -/
structure Sem (P O A B L M : Type) where
  numStages : ℕ                        -- model.num_stages
  predMax : P → B → List ℕ             -- torch.argmax(model(batch), 1), per sample
  labelsList : L → List ℕ              -- the label batch as a list; labels.size(0) = length
  critVal : P → B → L → ℚ              -- criterion(model(batch), labels)
  critGrad : P → B → L → ℚ             -- parameter gradient of that loss (scalar summary)
  actOf : P → B → A                    -- stage activation captured by the forward hook
  gradActOf : P → B → L → A            -- stage gradient captured by the backward hook
  gradActMix : P → B → ℚ → L → L → A   -- stage gradient captured on a mixed-loss backward
  shapeWH : A → ℕ × ℕ                  -- (W_f, H_f) of the stage feature map
  makeMask : A → A → ℕ → ℕ → M         -- CAM + generate_attentive_mask(radius, num_proposals)
  maskCounts : M → List ℕ              -- attention_masks.sum(dim=1).sum(dim=1), per sample
  permuteB : B → List ℕ → B            -- batch[rand_index]
  permuteL : L → List ℕ → L            -- labels[rand_index]
  mixImages : M → B → B → B            -- upsample + mask*A + (1-mask)*B, lines 73-83/198-206
  boxMix : B → List ℕ → ℕ × ℕ × ℕ × ℕ → B  -- the box splice of trainer.py line 338
  imgWH : B → ℕ × ℕ                    -- (batch.size(-2), batch.size(-1))
  optStepF : P → O → ℚ → P × O         -- optimizer.step() on the accumulated gradient
  schedStepF : O → O                   -- scheduler.step()

/-- Mutable model-side state: parameters, optimizer state, the accumulated
gradient buffer, and the Wrapper's per-stage caches (modelled from the spec;
see the section comment). -/
structure MState (P O A : Type) where
  params : P
  opt : O
  grad : ℚ
  dictActivation : Option A
  dictGradients : Option A

/-- Running epoch metric accumulators (trainer.py lines 31-33 etc.). -/
structure Mets where
  train_loss : ℚ
  train_n_corrects : ℕ
  train_n_samples : ℕ
  deriving DecidableEq, Repr

/-- Full loop state: model-side state, metric accumulators, and the recorded
event trace. -/
structure LState (P O A : Type) where
  m : MState P O A
  mets : Mets
  evs : List Ev

/-- Embeds `torch.sum(pred_max == labels)`: the number of positions where the
prediction equals the label. -/
def countCorrect (preds labels : List ℕ) : ℕ :=
  ((preds.zip labels).filter (fun pl => pl.1 == pl.2)).length

/-- One batch of loader data together with the random draws consumed while
processing it: `r = np.random.rand(1)[0]`, `rand_index = torch.randperm(N)`,
`stageDraw = torch.randint(1, num_stages, (1,))[0]` (HybridCutMix only),
`lam0 = np.random.beta(1, 1)` and `bbox = rand_bbox(batch.size(), lam)`
(CutMix only; `rand_bbox` lives in `utils/misc.py`, outside the sources, so
its output is an oracle input here). -/
structure BatchIn (B L : Type) where
  batch : B
  labels : L
  r : ℚ
  rand_index : List ℕ
  stageDraw : ℕ
  lam0 : ℚ
  bbox : ℕ × ℕ × ℕ × ℕ

/-- The radius update of trainer.py lines 167-170:
`final_radius = final_radius * (model.num_stages - target_stage_index)`,
then `final_radius = final_radius // 4` when `target_stage_index < 3`. -/
def radiusStep (num_stages final_radius target_stage_index : ℕ) : ℕ :=
  let fr := final_radius * (num_stages - target_stage_index)
  if target_stage_index < 3 then fr / 4 else fr

/-- The mixed batch built by the attention-guided branch (trainer.py lines
58-83 / 180-206): the mask generated from the cached stage activation and
gradient, applied to the batch and its permutation. -/
def attnMixed {P O A B L M : Type} (sem : Sem P O A B L M)
    (radius num_proposals : ℕ) (p : P) (b : B) (l : L) (rand_index : List ℕ) : B :=
  sem.mixImages (sem.makeMask (sem.actOf p b) (sem.gradActOf p b l) radius num_proposals)
    b (sem.permuteB b rand_index)

section Loops

variable {P O A B L M : Type}

/-- One batch of the vanilla `train` loop, trainer.py lines 265-292. -/
def vanillaBatch (sem : Sem P O A B L M) (st : LState P O A) (inp : BatchIn B L) :
    LState P O A :=
  -- line 269: optimizer.zero_grad()
  let s1 : MState P O A := { st.m with grad := 0 }
  -- line 271: pred = model(batch); the forward hook caches the stage activation
  let s2 : MState P O A := { s1 with dictActivation := some (sem.actOf s1.params inp.batch) }
  -- line 272
  let pred_max := sem.predMax s2.params inp.batch
  -- line 274: loss = criterion(pred, labels)
  let lossv := sem.critVal s2.params inp.batch inp.labels
  -- lines 287-289: metric accumulation
  let mets : Mets :=
    { train_loss := st.mets.train_loss + lossv
      train_n_corrects :=
        st.mets.train_n_corrects + countCorrect pred_max (sem.labelsList inp.labels)
      train_n_samples := st.mets.train_n_samples + (sem.labelsList inp.labels).length }
  -- line 291: loss.backward(); the backward hook caches the stage gradient
  let s3 : MState P O A :=
    { s2 with grad := s2.grad + sem.critGrad s2.params inp.batch inp.labels
              dictGradients := some (sem.gradActOf s2.params inp.batch inp.labels) }
  -- line 292: optimizer.step()
  let po := sem.optStepF s3.params s3.opt s3.grad
  { m := { s3 with params := po.1, opt := po.2 }
    mets := mets
    evs := st.evs ++ [Ev.ZeroGrad, Ev.Fwd, Ev.Bwd, Ev.OptStep] }

/-- One batch of `train_HybridPartSwapping`, trainer.py lines 35-118. -/
def hpsBatch [Inhabited A] (sem : Sem P O A B L M) (cut_prob : ℚ)
    (radius num_proposals : ℕ) (st : LState P O A) (inp : BatchIn B L) :
    LState P O A :=
  -- line 39: optimizer.zero_grad()
  let s1 : MState P O A := { st.m with grad := 0 }
  -- lines 41-42: pred = model(batch); pred_max
  let s2 : MState P O A := { s1 with dictActivation := some (sem.actOf s1.params inp.batch) }
  let pred_max := sem.predMax s2.params inp.batch
  -- line 49: if r < cut_prob
  if inp.r < cut_prob then
    -- line 50: target_stage_index = model.num_stages - 1
    let target_stage_index := sem.numStages - 1
    -- lines 54-56: loss = criterion(pred, labels); loss.backward()
    let s3 : MState P O A :=
      { s2 with grad := s2.grad + sem.critGrad s2.params inp.batch inp.labels
                dictGradients := some (sem.gradActOf s2.params inp.batch inp.labels) }
    -- lines 58-59: read the caches
    let target_fmap := s3.dictActivation.getD default
    let target_gradients := s3.dictGradients.getD default
    -- line 60: optimizer.zero_grad()
    let s4 : MState P O A := { s3 with grad := 0 }
    -- line 61: model.clear_dict()
    let s5 : MState P O A := { s4 with dictActivation := none, dictGradients := none }
    -- line 63: N, C, W_f, H_f = target_fmap.shape
    let wh := sem.shapeWH target_fmap
    -- lines 65-70: CAM and attentive mask
    let attention_masks := sem.makeMask target_fmap target_gradients radius num_proposals
    -- lines 76-77: n_mix and mix_ratio
    let mr := mix_ratio radius wh.1 wh.2
    -- lines 79-83: rand_index, image_a, image_b, batch = image_a + image_b
    let batch2 := sem.mixImages attention_masks inp.batch (sem.permuteB inp.batch inp.rand_index)
    -- lines 85-86
    let target_a := inp.labels
    let target_b := sem.permuteL inp.labels inp.rand_index
    -- lines 88-89: second forward pass on the mixed batch
    let s6 : MState P O A := { s5 with dictActivation := some (sem.actOf s5.params batch2) }
    let pred_max2 := sem.predMax s6.params batch2
    -- lines 93-96: loss selection (fine-grained stages skip label mixing)
    let lossv :=
      if target_stage_index < 3 then sem.critVal s6.params batch2 inp.labels
      else sem.critVal s6.params batch2 target_a * mr +
        sem.critVal s6.params batch2 target_b * (1 - mr)
    let lossg :=
      if target_stage_index < 3 then sem.critGrad s6.params batch2 inp.labels
      else sem.critGrad s6.params batch2 target_a * mr +
        sem.critGrad s6.params batch2 target_b * (1 - mr)
    -- lines 113-115: metric accumulation
    let mets : Mets :=
      { train_loss := st.mets.train_loss + lossv
        train_n_corrects :=
          st.mets.train_n_corrects + countCorrect pred_max2 (sem.labelsList inp.labels)
        train_n_samples := st.mets.train_n_samples + (sem.labelsList inp.labels).length }
    -- line 116: optimizer.zero_grad()
    let s7 : MState P O A := { s6 with grad := 0 }
    -- line 117: loss.backward()
    let s8 : MState P O A :=
      { s7 with grad := s7.grad + lossg
                dictGradients := some (sem.gradActMix s7.params batch2 mr target_a target_b) }
    -- line 118: optimizer.step()
    let po := sem.optStepF s8.params s8.opt s8.grad
    { m := { s8 with params := po.1, opt := po.2 }
      mets := mets
      evs := st.evs ++ [Ev.ZeroGrad, Ev.Fwd, Ev.Bwd, Ev.ZeroGrad, Ev.ClearDict,
        Ev.Fwd, Ev.ZeroGrad, Ev.Bwd, Ev.OptStep] }
  else
    -- line 99: loss = criterion(pred, labels)
    let lossv := sem.critVal s2.params inp.batch inp.labels
    -- lines 113-115
    let mets : Mets :=
      { train_loss := st.mets.train_loss + lossv
        train_n_corrects :=
          st.mets.train_n_corrects + countCorrect pred_max (sem.labelsList inp.labels)
        train_n_samples := st.mets.train_n_samples + (sem.labelsList inp.labels).length }
    -- lines 116-118
    let s3 : MState P O A := { s2 with grad := 0 }
    let s4 : MState P O A :=
      { s3 with grad := s3.grad + sem.critGrad s3.params inp.batch inp.labels
                dictGradients := some (sem.gradActOf s3.params inp.batch inp.labels) }
    let po := sem.optStepF s4.params s4.opt s4.grad
    { m := { s4 with params := po.1, opt := po.2 }
      mets := mets
      evs := st.evs ++ [Ev.ZeroGrad, Ev.Fwd, Ev.ZeroGrad, Ev.Bwd, Ev.OptStep] }

/-- One batch of `train_HybridCutMix`, trainer.py lines 150-239; the second
component of the state is the `final_radius` variable, reassigned in place by
the augmented branch (lines 167-170) and carried to the next iteration. -/
def hcmBatch [Inhabited A] (sem : Sem P O A B L M) (cut_prob : ℚ) (multiplier : ℕ)
    (st : LState P O A × ℕ) (inp : BatchIn B L) : LState P O A × ℕ :=
  let ls := st.1
  let final_radius := st.2
  -- line 154: optimizer.zero_grad()
  let s1 : MState P O A := { ls.m with grad := 0 }
  -- lines 156-157
  let s2 : MState P O A := { s1 with dictActivation := some (sem.actOf s1.params inp.batch) }
  let pred_max := sem.predMax s2.params inp.batch
  -- line 164: if r < cut_prob
  if inp.r < cut_prob then
    -- line 165: target_stage_index = torch.randint(1, num_stages, (1,))[0]
    let target_stage_index := inp.stageDraw
    -- lines 167-170: final_radius update (radiusStep is those two statements)
    let fr2 := radiusStep sem.numStages final_radius target_stage_index
    -- line 172
    let num_proposals := (sem.numStages - target_stage_index) * multiplier
    -- lines 176-178: loss = criterion(pred, labels); loss.backward()
    let s3 : MState P O A :=
      { s2 with grad := s2.grad + sem.critGrad s2.params inp.batch inp.labels
                dictGradients := some (sem.gradActOf s2.params inp.batch inp.labels) }
    -- lines 180-181
    let target_fmap := s3.dictActivation.getD default
    let target_gradients := s3.dictGradients.getD default
    -- lines 182-183
    let s4 : MState P O A := { s3 with grad := 0 }
    let s5 : MState P O A := { s4 with dictActivation := none, dictGradients := none }
    -- lines 185-187
    let wh := sem.shapeWH target_fmap
    let n_total_pixels := wh.1 * wh.2
    -- line 194
    let attention_masks := sem.makeMask target_fmap target_gradients fr2 num_proposals
    -- lines 196, 201: occlusion_ratio from the per-sample non-zero counts
    let occ := occRatioOfCounts (sem.maskCounts attention_masks) n_total_pixels
    -- lines 202-206
    let batch2 := sem.mixImages attention_masks inp.batch (sem.permuteB inp.batch inp.rand_index)
    -- lines 208-209
    let target_a := inp.labels
    let target_b := sem.permuteL inp.labels inp.rand_index
    -- lines 211-212: second forward pass on the mixed batch
    let s6 : MState P O A := { s5 with dictActivation := some (sem.actOf s5.params batch2) }
    let pred_max2 := sem.predMax s6.params batch2
    -- lines 214-217: loss selection (fine-grained stages skip label mixing)
    let lossv :=
      if target_stage_index < 3 then sem.critVal s6.params batch2 inp.labels
      else sem.critVal s6.params batch2 target_a * (1 - occ) +
        sem.critVal s6.params batch2 target_b * occ
    let lossg :=
      if target_stage_index < 3 then sem.critGrad s6.params batch2 inp.labels
      else sem.critGrad s6.params batch2 target_a * (1 - occ) +
        sem.critGrad s6.params batch2 target_b * occ
    -- lines 234-236
    let mets : Mets :=
      { train_loss := ls.mets.train_loss + lossv
        train_n_corrects :=
          ls.mets.train_n_corrects + countCorrect pred_max2 (sem.labelsList inp.labels)
        train_n_samples := ls.mets.train_n_samples + (sem.labelsList inp.labels).length }
    -- lines 237-239
    let s7 : MState P O A := { s6 with grad := 0 }
    let s8 : MState P O A :=
      { s7 with grad := s7.grad + lossg
                dictGradients := some (sem.gradActMix s7.params batch2 (1 - occ) target_a target_b) }
    let po := sem.optStepF s8.params s8.opt s8.grad
    ( { m := { s8 with params := po.1, opt := po.2 }
        mets := mets
        evs := ls.evs ++ [Ev.ZeroGrad, Ev.Fwd, Ev.Bwd, Ev.ZeroGrad, Ev.ClearDict,
          Ev.Fwd, Ev.ZeroGrad, Ev.Bwd, Ev.OptStep] }, fr2 )
  else
    -- line 220: loss = criterion(pred, labels)
    let lossv := sem.critVal s2.params inp.batch inp.labels
    -- lines 234-236
    let mets : Mets :=
      { train_loss := ls.mets.train_loss + lossv
        train_n_corrects :=
          ls.mets.train_n_corrects + countCorrect pred_max (sem.labelsList inp.labels)
        train_n_samples := ls.mets.train_n_samples + (sem.labelsList inp.labels).length }
    -- lines 237-239
    let s3 : MState P O A := { s2 with grad := 0 }
    let s4 : MState P O A :=
      { s3 with grad := s3.grad + sem.critGrad s3.params inp.batch inp.labels
                dictGradients := some (sem.gradActOf s3.params inp.batch inp.labels) }
    let po := sem.optStepF s4.params s4.opt s4.grad
    ( { m := { s4 with params := po.1, opt := po.2 }
        mets := mets
        evs := ls.evs ++ [Ev.ZeroGrad, Ev.Fwd, Ev.ZeroGrad, Ev.Bwd, Ev.OptStep] }
      , final_radius )

/-- One batch of `train_CutMix`, trainer.py lines 322-368. -/
def cutMixBatch (sem : Sem P O A B L M) (cut_prob : ℚ)
    (st : LState P O A) (inp : BatchIn B L) : LState P O A :=
  -- line 326: optimizer.zero_grad()
  let s1 : MState P O A := { st.m with grad := 0 }
  -- lines 328-330: r = np.random.rand(1); if r < cut_prob
  if inp.r < cut_prob then
    -- lines 332-335
    let labels_a := inp.labels
    let labels_b := sem.permuteL inp.labels inp.rand_index
    -- lines 337-338: bbox from rand_bbox (oracle), in-place box splice
    let bb := inp.bbox
    let batch2 := sem.boxMix inp.batch inp.rand_index bb
    -- line 340: lam = 1 - ((bbx2-bbx1)*(bby2-bby1)/(W*H))
    let wh := sem.imgWH inp.batch
    let lam : ℚ :=
      1 - (((bb.2.2.1 - bb.1) * (bb.2.2.2 - bb.2.1) : ℕ) : ℚ) / ((wh.1 * wh.2 : ℕ) : ℚ)
    -- lines 343-344: pred = model(batch); mixed loss
    let s2 : MState P O A := { s1 with dictActivation := some (sem.actOf s1.params batch2) }
    let lossv := sem.critVal s2.params batch2 labels_a * lam +
      sem.critVal s2.params batch2 labels_b * (1 - lam)
    let lossg := sem.critGrad s2.params batch2 labels_a * lam +
      sem.critGrad s2.params batch2 labels_b * (1 - lam)
    -- line 350: pred_max on the mixed batch
    let pred_max := sem.predMax s2.params batch2
    -- lines 363-364: loss.backward(); optimizer.step()
    let s3 : MState P O A :=
      { s2 with grad := s2.grad + lossg
                dictGradients := some (sem.gradActMix s2.params batch2 lam labels_a labels_b) }
    let po := sem.optStepF s3.params s3.opt s3.grad
    -- lines 366-368: metric accumulation (after the step, on the pre-step values)
    { m := { s3 with params := po.1, opt := po.2 }
      mets :=
        { train_loss := st.mets.train_loss + lossv
          train_n_corrects :=
            st.mets.train_n_corrects + countCorrect pred_max (sem.labelsList inp.labels)
          train_n_samples := st.mets.train_n_samples + (sem.labelsList inp.labels).length }
      evs := st.evs ++ [Ev.ZeroGrad, Ev.Fwd, Ev.Bwd, Ev.OptStep] }
  else
    -- lines 347-348
    let s2 : MState P O A := { s1 with dictActivation := some (sem.actOf s1.params inp.batch) }
    let lossv := sem.critVal s2.params inp.batch inp.labels
    -- line 350
    let pred_max := sem.predMax s2.params inp.batch
    -- lines 363-364
    let s3 : MState P O A :=
      { s2 with grad := s2.grad + sem.critGrad s2.params inp.batch inp.labels
                dictGradients := some (sem.gradActOf s2.params inp.batch inp.labels) }
    let po := sem.optStepF s3.params s3.opt s3.grad
    -- lines 366-368
    { m := { s3 with params := po.1, opt := po.2 }
      mets :=
        { train_loss := st.mets.train_loss + lossv
          train_n_corrects :=
            st.mets.train_n_corrects + countCorrect pred_max (sem.labelsList inp.labels)
          train_n_samples := st.mets.train_n_samples + (sem.labelsList inp.labels).length }
      evs := st.evs ++ [Ev.ZeroGrad, Ev.Fwd, Ev.Bwd, Ev.OptStep] }

/-- Fresh loop state at epoch start (accumulators zeroed, caches empty). -/
def initLState (p : P) (o : O) : LState P O A :=
  { m := { params := p, opt := o, grad := 0, dictActivation := none, dictGradients := none }
    mets := { train_loss := 0, train_n_corrects := 0, train_n_samples := 0 }
    evs := [] }

/-- Epoch finalization shared by all four loops: `scheduler.step()` once after
all batches, then `epoch_train_loss = train_loss / len(train_loader)` and
`epoch_train_acc = train_n_corrects / train_n_samples`. -/
def finishEpoch (sem : Sem P O A B L M) (st : LState P O A) (numBatches : ℕ) :
    LState P O A × ℚ × ℚ :=
  let st1 : LState P O A :=
    { st with m := { st.m with opt := sem.schedStepF st.m.opt }
              evs := st.evs ++ [Ev.SchedStep] }
  ( st1, st1.mets.train_loss / (numBatches : ℚ),
    (st1.mets.train_n_corrects : ℚ) / (st1.mets.train_n_samples : ℚ) )

/-- The vanilla `train` epoch, trainer.py lines 248-299. -/
def train (sem : Sem P O A B L M) (p : P) (o : O) (data : List (BatchIn B L)) :
    LState P O A × ℚ × ℚ :=
  finishEpoch sem (data.foldl (vanillaBatch sem) (initLState p o)) data.length

/-- The `train_HybridPartSwapping` epoch, trainer.py lines 12-125. -/
def train_HybridPartSwapping [Inhabited A] (sem : Sem P O A B L M) (cut_prob : ℚ)
    (radius num_proposals : ℕ) (p : P) (o : O) (data : List (BatchIn B L)) :
    LState P O A × ℚ × ℚ :=
  finishEpoch sem
    (data.foldl (hpsBatch sem cut_prob radius num_proposals) (initLState p o)) data.length

/-- The `train_HybridCutMix` epoch, trainer.py lines 127-246; `radius` is the
initial value of `final_radius` (kwargs radius, line 142). -/
def train_HybridCutMix [Inhabited A] (sem : Sem P O A B L M) (cut_prob : ℚ)
    (radius multiplier : ℕ) (p : P) (o : O) (data : List (BatchIn B L)) :
    (LState P O A × ℕ) × ℚ × ℚ :=
  let r := data.foldl (hcmBatch sem cut_prob multiplier) (initLState p o, radius)
  let fin := finishEpoch sem r.1 data.length
  ( (fin.1, r.2), fin.2.1, fin.2.2 )

/-- The `train_CutMix` epoch, trainer.py lines 301-375. -/
def train_CutMix (sem : Sem P O A B L M) (cut_prob : ℚ) (p : P) (o : O)
    (data : List (BatchIn B L)) : LState P O A × ℚ × ℚ :=
  finishEpoch sem (data.foldl (cutMixBatch sem cut_prob) (initLState p o)) data.length

/-- One batch of the evaluation loop `test`, trainer.py lines 388-398: a
forward pass under `torch.no_grad()` (the forward hook still caches the stage
activation; no gradient is computed, no optimizer exists in scope). -/
def testBatch (sem : Sem P O A B L M) (st : MState P O A × Mets) (inp : B × L) :
    MState P O A × Mets :=
  let s : MState P O A := { st.1 with dictActivation := some (sem.actOf st.1.params inp.1) }
  let pred_max := sem.predMax s.params inp.1
  let lossv := sem.critVal s.params inp.1 inp.2
  ( s,
    { train_loss := st.2.train_loss + lossv
      train_n_corrects := st.2.train_n_corrects + countCorrect pred_max (sem.labelsList inp.2)
      train_n_samples := st.2.train_n_samples + (sem.labelsList inp.2).length } )

/-- The evaluation loop `test`, trainer.py lines 377-416: accumulates loss and
accuracy over the held-out data; takes no optimizer and no scheduler. -/
def test (sem : Sem P O A B L M) (s : MState P O A) (data : List (B × L)) :
    MState P O A × ℚ × ℚ :=
  let r := data.foldl (testBatch sem)
    (s, { train_loss := 0, train_n_corrects := 0, train_n_samples := 0 })
  ( r.1, r.2.train_loss / (data.length : ℚ),
    (r.2.train_n_corrects : ℚ) / (r.2.train_n_samples : ℚ) )

end Loops

/-! ### Derived views of the augmented branches, and a concrete instantiation -/

/-- The stage feature-map shape read by the augmented branch: the shape of the
activation cached by the first forward pass (trainer.py lines 58, 63 / 180, 185). -/
def stageWH {P O A B L M : Type} (sem : Sem P O A B L M) (p : P) (b : B) : ℕ × ℕ :=
  sem.shapeWH (sem.actOf p b)

/-- The occlusion coefficient computed by train_HybridCutMix lines 185-201 for
given radius and proposal count. -/
def hcmOcc {P O A B L M : Type} (sem : Sem P O A B L M)
    (radius num_proposals : ℕ) (p : P) (b : B) (l : L) : ℚ :=
  occRatioOfCounts
    (sem.maskCounts (sem.makeMask (sem.actOf p b) (sem.gradActOf p b l) radius num_proposals))
    ((stageWH sem p b).1 * (stageWH sem p b).2)

/-- The parameter gradient backpropagated by the augmented branch of
train_HybridPartSwapping (lines 93-96 and 117): the criterion gradient on the
mixed batch, label-mixed by `mix_ratio` unless the target stage is fine-grained. -/
def hpsMixGrad {P O A B L M : Type} [Inhabited A] (sem : Sem P O A B L M)
    (radius num_proposals : ℕ) (p : P) (inp : BatchIn B L) : ℚ :=
  let batch2 := attnMixed sem radius num_proposals p inp.batch inp.labels inp.rand_index
  let mr := mix_ratio radius (stageWH sem p inp.batch).1 (stageWH sem p inp.batch).2
  if sem.numStages - 1 < 3 then sem.critGrad p batch2 inp.labels
  else sem.critGrad p batch2 inp.labels * mr +
    sem.critGrad p batch2 (sem.permuteL inp.labels inp.rand_index) * (1 - mr)

/-- The parameter gradient backpropagated by the augmented branch of
train_HybridCutMix (lines 214-217 and 238), for the incoming `final_radius`. -/
def hcmMixGrad {P O A B L M : Type} [Inhabited A] (sem : Sem P O A B L M)
    (multiplier final_radius : ℕ) (p : P) (inp : BatchIn B L) : ℚ :=
  let fr2 := radiusStep sem.numStages final_radius inp.stageDraw
  let np := (sem.numStages - inp.stageDraw) * multiplier
  let batch2 := attnMixed sem fr2 np p inp.batch inp.labels inp.rand_index
  let occ := hcmOcc sem fr2 np p inp.batch inp.labels
  if inp.stageDraw < 3 then sem.critGrad p batch2 inp.labels
  else sem.critGrad p batch2 inp.labels * (1 - occ) +
    sem.critGrad p batch2 (sem.permuteL inp.labels inp.rand_index) * occ

/-- A small, fully computable instantiation of the collaborator signature,
used to evaluate the loop embedding on closed inputs. -/
def demoSem : Sem ℚ ℚ ℚ ℚ (List ℕ) ℚ where
  numStages := 4
  predMax := fun _ _ => [1, 2]
  labelsList := fun l => l
  critVal := fun p b l => p + b + (l.length : ℚ)
  critGrad := fun p b l => p * b + (l.length : ℚ)
  actOf := fun p b => p + 2 * b
  gradActOf := fun p b l => p - b + (l.length : ℚ)
  gradActMix := fun p b c _ _ => p + b + c
  shapeWH := fun _ => (7, 7)
  makeMask := fun f g r np => f + g + (r : ℚ) + (np : ℚ)
  maskCounts := fun _ => [10, 12]
  permuteB := fun b _ => b + 1
  permuteL := fun l _ => l.reverse
  mixImages := fun m a b2 => m + a + 2 * b2
  boxMix := fun b _ bb => b + (bb.1 : ℚ)
  imgWH := fun _ => (224, 224)
  optStepF := fun p o g => (p - g / 10, o + 1)
  schedStepF := fun o => o * 2

/-- A fresh demo loop state. -/
def demoLS : LState ℚ ℚ ℚ := initLState 1 0

/-- A demo batch together with its random draws. -/
def demoIn (r : ℚ) (draw : ℕ) : BatchIn ℚ (List ℕ) :=
  { batch := 2, labels := [1, 2], r := r, rand_index := [1, 0], stageDraw := draw,
    lam0 := 1/2, bbox := (2, 3, 30, 40) }

/-- A demo two-image batch (pixel values 3 and 5) for the blending theorems. -/
def demoImgBatch : Fin 2 → Fin 1 → ℚ := fun j _ => if j = 0 then 3 else 5

/-- The swap permutation on a two-image batch. -/
def demoSwap : Fin 2 → Fin 2 := fun j => j + 1

/-! ### Bounds lemmas and the claim theorems -/

lemma pyMean_bounds (xs : List ℚ) (hne : xs ≠ [])
    (h0 : ∀ x ∈ xs, 0 ≤ x) (h1 : ∀ x ∈ xs, x ≤ 1) :
    0 ≤ pyMean xs ∧ pyMean xs ≤ 1 := by
  have hlen : 0 < (xs.length : ℚ) := by
    have : 0 < xs.length := List.length_pos.mpr hne
    exact_mod_cast this
  constructor
  · exact div_nonneg (List.sum_nonneg h0) (le_of_lt hlen)
  · rw [pyMean, div_le_one hlen]
    have := List.sum_le_card_nsmul xs 1 h1
    simpa using this

lemma occRatioOfCounts_bounds (counts : List ℕ) (n_total : ℕ)
    (hne : counts ≠ []) (htot : 1 ≤ n_total)
    (hle : ∀ c ∈ counts, c ≤ n_total) :
    0 ≤ occRatioOfCounts counts n_total ∧ occRatioOfCounts counts n_total ≤ 1 := by
  have htotQ : 0 < (n_total : ℚ) := by exact_mod_cast htot
  refine pyMean_bounds _ ?_ ?_ ?_
  · intro h
    exact hne (by simpa using h)
  · intro x hx
    rcases List.mem_map.mp hx with ⟨c, hcm, rfl⟩
    have hcQ : (c : ℚ) ≤ (n_total : ℚ) := by exact_mod_cast hle c hcm
    have hdiv : (c : ℚ) / (n_total : ℚ) ≤ 1 := div_le_one_of_le₀ hcQ (le_of_lt htotQ)
    linarith
  · intro x hx
    rcases List.mem_map.mp hx with ⟨c, hcm, rfl⟩
    have h0 : 0 ≤ (c : ℚ) / (n_total : ℚ) := div_nonneg (by positivity) (le_of_lt htotQ)
    linarith

lemma occlusion_ratio_bounds (masks : List AttnMask) (n_total : ℕ)
    (hne : masks ≠ []) (htot : 1 ≤ n_total)
    (hlen : ∀ m ∈ masks, m.length = n_total) :
    0 ≤ occlusion_ratio masks n_total ∧ occlusion_ratio masks n_total ≤ 1 := by
  refine occRatioOfCounts_bounds _ _ ?_ htot ?_
  · intro h
    exact hne (by simpa using h)
  · intro c hc
    rcases List.mem_map.mp hc with ⟨m, hm, rfl⟩
    have h1 : n_non_zero_pixels m ≤ m.length := by
      unfold n_non_zero_pixels
      exact List.count_le_length _ _
    exact le_trans h1 (le_of_eq (hlen m hm))


/-! ### Theorems for C1, C4, C5 -/

/-- C1 (counterexample): the claim asserts `mix_ratio = (radius+1)^2/(W_f*H_f)`
lies in [0, 1] for every radius ≥ 0 and every stage size W_f × H_f ≥ 1; at
radius = 1 and a 1 × 1 stage the code's coefficient is 4 > 1. -/
theorem C1_mix_ratio_not_bounded : ¬ (mix_ratio 1 1 1 ≤ 1) := by
  norm_num [mix_ratio, n_mix]

/-- C1 (amended): the label-mixing coefficient lies in [0, 1] provided
`(radius+1)^2 ≤ W_f*H_f` (for `mix_ratio`, which the code does not clamp), and
unconditionally for `occlusion_ratio` on a nonempty batch of binary
stage-resolution masks; the mixed loss
`coef*L(pred,labelA) + (1-coef)*L(pred,labelB)` reduces to `L(pred,labelA)`
when `coef = 1`. -/
theorem C1_label_mixing_coefficients (radius Wf Hf : ℕ)
    (hW : 1 ≤ Wf * Hf) (hr : n_mix radius ≤ Wf * Hf)
    (masks : List AttnMask) (hne : masks ≠ [])
    (hlen : ∀ m ∈ masks, m.length = Wf * Hf)
    (lossA lossB : ℚ) :
    (0 ≤ mix_ratio radius Wf Hf ∧ mix_ratio radius Wf Hf ≤ 1) ∧
    (0 ≤ occlusion_ratio masks (Wf * Hf) ∧ occlusion_ratio masks (Wf * Hf) ≤ 1) ∧
    mixedLoss 1 lossA lossB = lossA := by
  refine ⟨⟨?_, ?_⟩, occlusion_ratio_bounds masks (Wf * Hf) hne hW hlen, ?_⟩
  · unfold mix_ratio
    positivity
  · unfold mix_ratio
    have hWQ : (0 : ℚ) < ((Wf * Hf : ℕ) : ℚ) := by exact_mod_cast hW
    rw [div_le_one hWQ]
    exact_mod_cast hr
  · unfold mixedLoss
    ring

theorem C1_label_mixing_coefficients_witness :
    (1 ≤ 7 * 7 ∧ n_mix 4 ≤ 7 * 7 ∧ ([List.replicate 49 true] : List AttnMask) ≠ [] ∧
      ∀ m ∈ ([List.replicate 49 true] : List AttnMask), m.length = 7 * 7) ∧
    ((0 ≤ mix_ratio 4 7 7 ∧ mix_ratio 4 7 7 ≤ 1) ∧
     (0 ≤ occlusion_ratio [List.replicate 49 true] (7 * 7) ∧
       occlusion_ratio [List.replicate 49 true] (7 * 7) ≤ 1) ∧
     mixedLoss 1 (3 : ℚ) 5 = 3) :=
  ⟨⟨by decide, by decide, by decide, by decide⟩,
    C1_label_mixing_coefficients 4 7 7 (by decide) (by decide)
      [List.replicate 49 true] (by decide) (by decide) 3 5⟩

/-- C4: with an unknown `train_mode` (resp. `net_type`), the guarding
`assert` is applied to a nonempty message string, which is truthy, so no
AssertionError is raised and execution proceeds with no strategy (resp. no
stage-name list) selected — the program does not fail fast at the dispatch. -/
theorem C4_truthy_assert_no_fail_fast :
    trainModeDispatch "foo" = some none ∧
    stageNamesDispatch "foo" = some none ∧
    pyStrTruthy "Invalid training mode !" = true ∧
    pyStrTruthy "Unsupported network type !" = true := by
  refine ⟨?_, ?_, rfl, rfl⟩ <;> decide

/-- C5: for `mixed = mask*imageA + (1-mask)*imageB[permutation]` (trainer.py
lines 79-83 / 202-206), for every image batch and permutation: when the
upsampled mask is all ones the mixed batch equals imageA, and when it is all
zeros the mixed batch equals the permuted imageB. -/
theorem C5_blending_endpoints {σ ι : Type} (mask batch : σ → ι → ℚ)
    (rand_index : σ → σ) :
    ((∀ j i, mask j i = 1) →
      ∀ j i, mixedBatch mask batch rand_index j i = batch j i) ∧
    ((∀ j i, mask j i = 0) →
      ∀ j i, mixedBatch mask batch rand_index j i = batch (rand_index j) i) := by
  constructor
  · intro h j i
    simp [mixedBatch, image_a, image_b, h j i]
  · intro h j i
    simp [mixedBatch, image_a, image_b, h j i]

theorem C5_blending_endpoints_witness :
    mixedBatch (fun (_ : Fin 2) (_ : Fin 1) => (1 : ℚ)) demoImgBatch demoSwap 0 0 =
      demoImgBatch 0 0 ∧
    mixedBatch (fun (_ : Fin 2) (_ : Fin 1) => (0 : ℚ)) demoImgBatch demoSwap 0 0 =
      demoImgBatch (demoSwap 0) 0 :=
  ⟨(C5_blending_endpoints _ demoImgBatch demoSwap).1 (fun _ _ => rfl) 0 0,
   (C5_blending_endpoints _ demoImgBatch demoSwap).2 (fun _ _ => rfl) 0 0⟩

/-- C2: in the attention-guided augmented branch of train_HybridPartSwapping
and train_HybridCutMix, the recorded call sequence is exactly zero_grad,
forward, backward (cache-populating pass), zero_grad (gradients discarded with
no step), clear_dict, forward (on the mixed batch), zero_grad, backward,
optimizer.step() — so exactly one optimizer.step() occurs in the batch — and
the gradient actually stepped is the criterion gradient of the second,
mixed-batch forward pass, applied to the pre-batch parameters. -/
theorem C2_attention_guided_pass_structure {P O A B L M : Type} [Inhabited A]
    (sem : Sem P O A B L M) (cut_prob : ℚ) (radius num_proposals multiplier fr : ℕ)
    (st : LState P O A) (inp : BatchIn B L) (hr : inp.r < cut_prob) :
    (hpsBatch sem cut_prob radius num_proposals st inp).evs =
      st.evs ++ [Ev.ZeroGrad, Ev.Fwd, Ev.Bwd, Ev.ZeroGrad, Ev.ClearDict,
        Ev.Fwd, Ev.ZeroGrad, Ev.Bwd, Ev.OptStep] ∧
    (hpsBatch sem cut_prob radius num_proposals st inp).evs.count Ev.OptStep =
      st.evs.count Ev.OptStep + 1 ∧
    (hcmBatch sem cut_prob multiplier (st, fr) inp).1.evs =
      st.evs ++ [Ev.ZeroGrad, Ev.Fwd, Ev.Bwd, Ev.ZeroGrad, Ev.ClearDict,
        Ev.Fwd, Ev.ZeroGrad, Ev.Bwd, Ev.OptStep] ∧
    (hcmBatch sem cut_prob multiplier (st, fr) inp).1.evs.count Ev.OptStep =
      st.evs.count Ev.OptStep + 1 ∧
    (hpsBatch sem cut_prob radius num_proposals st inp).m.grad =
      hpsMixGrad sem radius num_proposals st.m.params inp ∧
    (hpsBatch sem cut_prob radius num_proposals st inp).m.params =
      (sem.optStepF st.m.params st.m.opt
        (hpsBatch sem cut_prob radius num_proposals st inp).m.grad).1 ∧
    (hcmBatch sem cut_prob multiplier (st, fr) inp).1.m.grad =
      hcmMixGrad sem multiplier fr st.m.params inp ∧
    (hcmBatch sem cut_prob multiplier (st, fr) inp).1.m.params =
      (sem.optStepF st.m.params st.m.opt
        (hcmBatch sem cut_prob multiplier (st, fr) inp).1.m.grad).1 := by
  refine ⟨?_, ?_, ?_, ?_, ?_, ?_, ?_, ?_⟩ <;>
    simp [hpsBatch, hcmBatch, hr, hpsMixGrad, hcmMixGrad, attnMixed, stageWH, hcmOcc,
      List.count_append]

theorem C2_attention_guided_pass_structure_witness :
    (demoIn (1/4) 3).r < 1/2 ∧
    (hpsBatch demoSem (1/2) 4 4 demoLS (demoIn (1/4) 3)).evs =
      demoLS.evs ++ [Ev.ZeroGrad, Ev.Fwd, Ev.Bwd, Ev.ZeroGrad, Ev.ClearDict,
        Ev.Fwd, Ev.ZeroGrad, Ev.Bwd, Ev.OptStep] :=
  ⟨by norm_num [demoIn],
   (C2_attention_guided_pass_structure demoSem (1/2) 4 4 2 4 demoLS (demoIn (1/4) 3)
      (by norm_num [demoIn])).1⟩

/-- C6: in the augmented branch of both hybrid training functions, when the
chosen target stage index is below 3 the loss added to the accumulator is the
plain criterion of the mixed batch against the original labels only (label
mixing skipped although the pixels were mixed); when the index is at least 3
the two-label mixed loss is used (weighted by `mix_ratio` in
train_HybridPartSwapping and by the occlusion ratio in train_HybridCutMix). -/
theorem C6_fine_grained_label_mixing_policy {P O A B L M : Type} [Inhabited A]
    (sem : Sem P O A B L M) (cut_prob : ℚ) (radius num_proposals multiplier fr : ℕ)
    (st : LState P O A) (inp : BatchIn B L) (hr : inp.r < cut_prob) :
    (sem.numStages - 1 < 3 →
      (hpsBatch sem cut_prob radius num_proposals st inp).mets.train_loss =
        st.mets.train_loss + sem.critVal st.m.params
          (attnMixed sem radius num_proposals st.m.params inp.batch inp.labels inp.rand_index)
          inp.labels) ∧
    (3 ≤ sem.numStages - 1 →
      (hpsBatch sem cut_prob radius num_proposals st inp).mets.train_loss =
        st.mets.train_loss +
        (sem.critVal st.m.params
            (attnMixed sem radius num_proposals st.m.params inp.batch inp.labels inp.rand_index)
            inp.labels *
          mix_ratio radius (stageWH sem st.m.params inp.batch).1
            (stageWH sem st.m.params inp.batch).2 +
         sem.critVal st.m.params
            (attnMixed sem radius num_proposals st.m.params inp.batch inp.labels inp.rand_index)
            (sem.permuteL inp.labels inp.rand_index) *
          (1 - mix_ratio radius (stageWH sem st.m.params inp.batch).1
            (stageWH sem st.m.params inp.batch).2))) ∧
    (inp.stageDraw < 3 →
      (hcmBatch sem cut_prob multiplier (st, fr) inp).1.mets.train_loss =
        st.mets.train_loss + sem.critVal st.m.params
          (attnMixed sem (radiusStep sem.numStages fr inp.stageDraw)
            ((sem.numStages - inp.stageDraw) * multiplier)
            st.m.params inp.batch inp.labels inp.rand_index)
          inp.labels) ∧
    (3 ≤ inp.stageDraw →
      (hcmBatch sem cut_prob multiplier (st, fr) inp).1.mets.train_loss =
        st.mets.train_loss +
        (sem.critVal st.m.params
            (attnMixed sem (radiusStep sem.numStages fr inp.stageDraw)
              ((sem.numStages - inp.stageDraw) * multiplier)
              st.m.params inp.batch inp.labels inp.rand_index)
            inp.labels *
          (1 - hcmOcc sem (radiusStep sem.numStages fr inp.stageDraw)
            ((sem.numStages - inp.stageDraw) * multiplier) st.m.params inp.batch inp.labels) +
         sem.critVal st.m.params
            (attnMixed sem (radiusStep sem.numStages fr inp.stageDraw)
              ((sem.numStages - inp.stageDraw) * multiplier)
              st.m.params inp.batch inp.labels inp.rand_index)
            (sem.permuteL inp.labels inp.rand_index) *
          hcmOcc sem (radiusStep sem.numStages fr inp.stageDraw)
            ((sem.numStages - inp.stageDraw) * multiplier) st.m.params inp.batch inp.labels)) := by
  refine ⟨?_, ?_, ?_, ?_⟩ <;> intro h <;>
    simp [hpsBatch, hcmBatch, hr, h, Nat.not_lt.mpr, attnMixed, stageWH, hcmOcc]

theorem C6_fine_grained_label_mixing_policy_witness :
    (demoIn 0 1).r < 1 ∧ (demoIn 0 1).stageDraw < 3 ∧
    (hcmBatch demoSem 1 1 (demoLS, 4) (demoIn 0 1)).1.mets.train_loss =
      demoLS.mets.train_loss + demoSem.critVal demoLS.m.params
        (attnMixed demoSem (radiusStep demoSem.numStages 4 (demoIn 0 1).stageDraw)
          ((demoSem.numStages - (demoIn 0 1).stageDraw) * 1)
          demoLS.m.params (demoIn 0 1).batch (demoIn 0 1).labels (demoIn 0 1).rand_index)
        (demoIn 0 1).labels :=
  ⟨by norm_num [demoIn], by norm_num [demoIn],
   (C6_fine_grained_label_mixing_policy demoSem 1 4 4 1 4 demoLS (demoIn 0 1)
      (by norm_num [demoIn])).2.2.1 (by norm_num [demoIn])⟩

/-- C9: in the augmented branch of all three mixing strategies, the per-batch
correct-prediction count added to the accuracy accumulator compares the
predictions computed on the mixed batch against the original unpermuted labels
only; the permuted labels never enter the comparison. -/
theorem C9_accuracy_uses_original_labels {P O A B L M : Type} [Inhabited A]
    (sem : Sem P O A B L M) (cut_prob : ℚ) (radius num_proposals multiplier fr : ℕ)
    (st : LState P O A) (inp : BatchIn B L) (hr : inp.r < cut_prob) :
    (hpsBatch sem cut_prob radius num_proposals st inp).mets.train_n_corrects =
      st.mets.train_n_corrects + countCorrect
        (sem.predMax st.m.params
          (attnMixed sem radius num_proposals st.m.params inp.batch inp.labels inp.rand_index))
        (sem.labelsList inp.labels) ∧
    (hcmBatch sem cut_prob multiplier (st, fr) inp).1.mets.train_n_corrects =
      st.mets.train_n_corrects + countCorrect
        (sem.predMax st.m.params
          (attnMixed sem (radiusStep sem.numStages fr inp.stageDraw)
            ((sem.numStages - inp.stageDraw) * multiplier)
            st.m.params inp.batch inp.labels inp.rand_index))
        (sem.labelsList inp.labels) ∧
    (cutMixBatch sem cut_prob st inp).mets.train_n_corrects =
      st.mets.train_n_corrects + countCorrect
        (sem.predMax st.m.params (sem.boxMix inp.batch inp.rand_index inp.bbox))
        (sem.labelsList inp.labels) := by
  refine ⟨?_, ?_, ?_⟩ <;>
    simp [hpsBatch, hcmBatch, cutMixBatch, hr, attnMixed]

theorem C9_accuracy_uses_original_labels_witness :
    (demoIn 0 3).r < 1 ∧
    (cutMixBatch demoSem 1 demoLS (demoIn 0 3)).mets.train_n_corrects =
      demoLS.mets.train_n_corrects + countCorrect
        (demoSem.predMax demoLS.m.params
          (demoSem.boxMix (demoIn 0 3).batch (demoIn 0 3).rand_index (demoIn 0 3).bbox))
        (demoSem.labelsList (demoIn 0 3).labels) :=
  ⟨by norm_num [demoIn],
   (C9_accuracy_uses_original_labels demoSem 1 4 4 1 4 demoLS (demoIn 0 3)
      (by norm_num [demoIn])).2.2⟩

lemma hpsBatch_unmixed {P O A B L M : Type} [Inhabited A] (sem : Sem P O A B L M)
    (radius num_proposals : ℕ) (st1 st2 : LState P O A) (inp : BatchIn B L)
    (hr : 0 ≤ inp.r) (hm : st1.m = st2.m) (hmets : st1.mets = st2.mets) :
    (hpsBatch sem 0 radius num_proposals st1 inp).m = (vanillaBatch sem st2 inp).m ∧
    (hpsBatch sem 0 radius num_proposals st1 inp).mets = (vanillaBatch sem st2 inp).mets := by
  have hnot : ¬ (inp.r < 0) := not_lt.mpr hr
  constructor <;> simp [hpsBatch, vanillaBatch, hnot, hm, hmets]

lemma hcmBatch_unmixed {P O A B L M : Type} [Inhabited A] (sem : Sem P O A B L M)
    (multiplier fr : ℕ) (st1 st2 : LState P O A) (inp : BatchIn B L)
    (hr : 0 ≤ inp.r) (hm : st1.m = st2.m) (hmets : st1.mets = st2.mets) :
    (hcmBatch sem 0 multiplier (st1, fr) inp).1.m = (vanillaBatch sem st2 inp).m ∧
    (hcmBatch sem 0 multiplier (st1, fr) inp).1.mets = (vanillaBatch sem st2 inp).mets ∧
    (hcmBatch sem 0 multiplier (st1, fr) inp).2 = fr := by
  have hnot : ¬ (inp.r < 0) := not_lt.mpr hr
  refine ⟨?_, ?_, ?_⟩ <;> simp [hcmBatch, vanillaBatch, hnot, hm, hmets]

lemma cutMixBatch_unmixed {P O A B L M : Type} (sem : Sem P O A B L M)
    (st1 st2 : LState P O A) (inp : BatchIn B L)
    (hr : 0 ≤ inp.r) (hm : st1.m = st2.m) (hmets : st1.mets = st2.mets) :
    (cutMixBatch sem 0 st1 inp).m = (vanillaBatch sem st2 inp).m ∧
    (cutMixBatch sem 0 st1 inp).mets = (vanillaBatch sem st2 inp).mets := by
  have hnot : ¬ (inp.r < 0) := not_lt.mpr hr
  constructor <;> simp [cutMixBatch, vanillaBatch, hnot, hm, hmets]

lemma hps_vanilla_fold {P O A B L M : Type} [Inhabited A] (sem : Sem P O A B L M)
    (radius num_proposals : ℕ) :
    ∀ (data : List (BatchIn B L)) (st1 st2 : LState P O A),
      (∀ b ∈ data, 0 ≤ b.r) → st1.m = st2.m → st1.mets = st2.mets →
      (data.foldl (hpsBatch sem 0 radius num_proposals) st1).m =
        (data.foldl (vanillaBatch sem) st2).m ∧
      (data.foldl (hpsBatch sem 0 radius num_proposals) st1).mets =
        (data.foldl (vanillaBatch sem) st2).mets := by
  intro data
  induction data with
  | nil => exact fun st1 st2 _ hm hmets => ⟨hm, hmets⟩
  | cons b bs ih =>
    intro st1 st2 hrs hm hmets
    have hb := hpsBatch_unmixed sem radius num_proposals st1 st2 b
      (hrs b (by simp)) hm hmets
    exact ih _ _ (fun x hx => hrs x (by simp [hx])) hb.1 hb.2

lemma hcm_vanilla_fold {P O A B L M : Type} [Inhabited A] (sem : Sem P O A B L M)
    (multiplier : ℕ) :
    ∀ (data : List (BatchIn B L)) (st1 st2 : LState P O A) (fr : ℕ),
      (∀ b ∈ data, 0 ≤ b.r) → st1.m = st2.m → st1.mets = st2.mets →
      (data.foldl (hcmBatch sem 0 multiplier) (st1, fr)).1.m =
        (data.foldl (vanillaBatch sem) st2).m ∧
      (data.foldl (hcmBatch sem 0 multiplier) (st1, fr)).1.mets =
        (data.foldl (vanillaBatch sem) st2).mets ∧
      (data.foldl (hcmBatch sem 0 multiplier) (st1, fr)).2 = fr := by
  intro data
  induction data with
  | nil => exact fun st1 st2 fr _ hm hmets => ⟨hm, hmets, rfl⟩
  | cons b bs ih =>
    intro st1 st2 fr hrs hm hmets
    have hb := hcmBatch_unmixed sem multiplier fr st1 st2 b (hrs b (by simp)) hm hmets
    have step : hcmBatch sem 0 multiplier (st1, fr) b =
        ((hcmBatch sem 0 multiplier (st1, fr) b).1, fr) :=
      Prod.ext rfl hb.2.2
    rw [List.foldl_cons, List.foldl_cons, step]
    exact ih _ _ fr (fun x hx => hrs x (by simp [hx])) hb.1 hb.2.1

lemma cutMix_vanilla_fold {P O A B L M : Type} (sem : Sem P O A B L M) :
    ∀ (data : List (BatchIn B L)) (st1 st2 : LState P O A),
      (∀ b ∈ data, 0 ≤ b.r) → st1.m = st2.m → st1.mets = st2.mets →
      (data.foldl (cutMixBatch sem 0) st1).m = (data.foldl (vanillaBatch sem) st2).m ∧
      (data.foldl (cutMixBatch sem 0) st1).mets = (data.foldl (vanillaBatch sem) st2).mets := by
  intro data
  induction data with
  | nil => exact fun st1 st2 _ hm hmets => ⟨hm, hmets⟩
  | cons b bs ih =>
    intro st1 st2 hrs hm hmets
    have hb := cutMixBatch_unmixed sem st1 st2 b (hrs b (by simp)) hm hmets
    exact ih _ _ (fun x hx => hrs x (by simp [hx])) hb.1 hb.2

/-- C3: with `cut_prob = 0` every per-batch draw `r` of `np.random.rand` (a
value in [0, 1)) fails the `r < cut_prob` test, so every batch follows the
unmodified path, and each mixing strategy's epoch produces exactly the model
state, optimizer/scheduler state, metric accumulators, mean loss and accuracy
of the vanilla `train` epoch on the same data and initial state. -/
theorem C3_cut_prob_zero_is_vanilla {P O A B L M : Type} [Inhabited A]
    (sem : Sem P O A B L M) (radius num_proposals multiplier r0 : ℕ)
    (p : P) (o : O) (data : List (BatchIn B L)) (hr : ∀ b ∈ data, 0 ≤ b.r) :
    ((train_HybridPartSwapping sem 0 radius num_proposals p o data).1.m =
        (train sem p o data).1.m ∧
      (train_HybridPartSwapping sem 0 radius num_proposals p o data).1.mets =
        (train sem p o data).1.mets ∧
      (train_HybridPartSwapping sem 0 radius num_proposals p o data).2 =
        (train sem p o data).2) ∧
    ((train_HybridCutMix sem 0 r0 multiplier p o data).1.1.m =
        (train sem p o data).1.m ∧
      (train_HybridCutMix sem 0 r0 multiplier p o data).1.1.mets =
        (train sem p o data).1.mets ∧
      (train_HybridCutMix sem 0 r0 multiplier p o data).2 =
        (train sem p o data).2) ∧
    ((train_CutMix sem 0 p o data).1.m = (train sem p o data).1.m ∧
      (train_CutMix sem 0 p o data).1.mets = (train sem p o data).1.mets ∧
      (train_CutMix sem 0 p o data).2 = (train sem p o data).2) := by
  obtain ⟨hm1, hmets1⟩ :=
    hps_vanilla_fold sem radius num_proposals data (initLState p o) (initLState p o) hr rfl rfl
  obtain ⟨hm2, hmets2, hfr2⟩ :=
    hcm_vanilla_fold sem multiplier data (initLState p o) (initLState p o) r0 hr rfl rfl
  obtain ⟨hm3, hmets3⟩ :=
    cutMix_vanilla_fold sem data (initLState p o) (initLState p o) hr rfl rfl
  refine ⟨⟨?_, ?_, ?_⟩, ⟨?_, ?_, ?_⟩, ⟨?_, ?_, ?_⟩⟩ <;>
    simp [train, train_HybridPartSwapping, train_HybridCutMix, train_CutMix, finishEpoch,
      hm1, hmets1, hm2, hmets2, hm3, hmets3]

theorem C3_cut_prob_zero_is_vanilla_witness :
    0 ≤ (demoIn 0 1).r ∧
    (train_HybridPartSwapping demoSem 0 4 4 1 0 [demoIn 0 1]).1.mets =
      (train demoSem 1 0 [demoIn 0 1]).1.mets :=
  ⟨by norm_num [demoIn],
   (C3_cut_prob_zero_is_vanilla demoSem 4 4 1 4 1 0 [demoIn 0 1]
      (by intro b hb; simp at hb; simp [hb, demoIn])).1.2.1⟩

lemma foldl_proj_add {S α : Type} (f : S → α → S) (proj : S → ℕ) (size : α → ℕ)
    (hf : ∀ st b, proj (f st b) = proj st + size b) :
    ∀ (data : List α) (st : S), proj (data.foldl f st) = proj st + (data.map size).sum := by
  intro data
  induction data with
  | nil => simp
  | cons b bs ih =>
    intro st
    rw [List.foldl_cons, ih, hf]
    simp [Nat.add_assoc]

lemma vanillaBatch_samples {P O A B L M : Type} (sem : Sem P O A B L M)
    (st : LState P O A) (inp : BatchIn B L) :
    (vanillaBatch sem st inp).mets.train_n_samples =
      st.mets.train_n_samples + (sem.labelsList inp.labels).length := by
  simp [vanillaBatch]

lemma hpsBatch_samples {P O A B L M : Type} [Inhabited A] (sem : Sem P O A B L M)
    (cut_prob : ℚ) (radius num_proposals : ℕ) (st : LState P O A) (inp : BatchIn B L) :
    (hpsBatch sem cut_prob radius num_proposals st inp).mets.train_n_samples =
      st.mets.train_n_samples + (sem.labelsList inp.labels).length := by
  by_cases h : inp.r < cut_prob <;> simp [hpsBatch, h]

lemma hcmBatch_samples {P O A B L M : Type} [Inhabited A] (sem : Sem P O A B L M)
    (cut_prob : ℚ) (multiplier : ℕ) (st : LState P O A × ℕ) (inp : BatchIn B L) :
    (hcmBatch sem cut_prob multiplier st inp).1.mets.train_n_samples =
      st.1.mets.train_n_samples + (sem.labelsList inp.labels).length := by
  by_cases h : inp.r < cut_prob <;> simp [hcmBatch, h]

lemma cutMixBatch_samples {P O A B L M : Type} (sem : Sem P O A B L M)
    (cut_prob : ℚ) (st : LState P O A) (inp : BatchIn B L) :
    (cutMixBatch sem cut_prob st inp).mets.train_n_samples =
      st.mets.train_n_samples + (sem.labelsList inp.labels).length := by
  by_cases h : inp.r < cut_prob <;> simp [cutMixBatch, h]

/-- C7: for every epoch of every training function, the returned accuracy is
the accumulated correct-prediction count divided by the accumulated sample
count, and the sample count is the sum of the per-batch sizes
(`labels.size(0)`) over the epoch. -/
theorem C7_accuracy_accumulator {P O A B L M : Type} [Inhabited A]
    (sem : Sem P O A B L M) (cut_prob : ℚ) (radius num_proposals multiplier r0 : ℕ)
    (p : P) (o : O) (data : List (BatchIn B L)) :
    ((train sem p o data).2.2 =
        ((train sem p o data).1.mets.train_n_corrects : ℚ) /
          ((train sem p o data).1.mets.train_n_samples : ℚ) ∧
      (train sem p o data).1.mets.train_n_samples =
        (data.map (fun b => (sem.labelsList b.labels).length)).sum) ∧
    ((train_HybridPartSwapping sem cut_prob radius num_proposals p o data).2.2 =
        ((train_HybridPartSwapping sem cut_prob radius num_proposals p o data).1.mets.train_n_corrects : ℚ) /
          ((train_HybridPartSwapping sem cut_prob radius num_proposals p o data).1.mets.train_n_samples : ℚ) ∧
      (train_HybridPartSwapping sem cut_prob radius num_proposals p o data).1.mets.train_n_samples =
        (data.map (fun b => (sem.labelsList b.labels).length)).sum) ∧
    ((train_HybridCutMix sem cut_prob r0 multiplier p o data).2.2 =
        ((train_HybridCutMix sem cut_prob r0 multiplier p o data).1.1.mets.train_n_corrects : ℚ) /
          ((train_HybridCutMix sem cut_prob r0 multiplier p o data).1.1.mets.train_n_samples : ℚ) ∧
      (train_HybridCutMix sem cut_prob r0 multiplier p o data).1.1.mets.train_n_samples =
        (data.map (fun b => (sem.labelsList b.labels).length)).sum) ∧
    ((train_CutMix sem cut_prob p o data).2.2 =
        ((train_CutMix sem cut_prob p o data).1.mets.train_n_corrects : ℚ) /
          ((train_CutMix sem cut_prob p o data).1.mets.train_n_samples : ℚ) ∧
      (train_CutMix sem cut_prob p o data).1.mets.train_n_samples =
        (data.map (fun b => (sem.labelsList b.labels).length)).sum) := by
  have hv := foldl_proj_add (vanillaBatch sem) (fun st => st.mets.train_n_samples)
    (fun b => (sem.labelsList b.labels).length) (vanillaBatch_samples sem) data (initLState p o)
  have hh := foldl_proj_add (hpsBatch sem cut_prob radius num_proposals)
    (fun st => st.mets.train_n_samples)
    (fun b => (sem.labelsList b.labels).length)
    (hpsBatch_samples sem cut_prob radius num_proposals) data (initLState p o)
  have hc := foldl_proj_add (hcmBatch sem cut_prob multiplier)
    (fun st => st.1.mets.train_n_samples)
    (fun b => (sem.labelsList b.labels).length)
    (hcmBatch_samples sem cut_prob multiplier) data (initLState p o, r0)
  have hx := foldl_proj_add (cutMixBatch sem cut_prob) (fun st => st.mets.train_n_samples)
    (fun b => (sem.labelsList b.labels).length)
    (cutMixBatch_samples sem cut_prob) data (initLState p o)
  refine ⟨⟨rfl, ?_⟩, ⟨rfl, ?_⟩, ⟨rfl, ?_⟩, ⟨rfl, ?_⟩⟩ <;>
    simp_all [train, train_HybridPartSwapping, train_HybridCutMix, train_CutMix,
      finishEpoch, initLState]

lemma test_fold_preserves {P O A B L M : Type} (sem : Sem P O A B L M) :
    ∀ (data : List (B × L)) (s : MState P O A) (m : Mets),
      (data.foldl (testBatch sem) (s, m)).1.params = s.params ∧
      (data.foldl (testBatch sem) (s, m)).1.opt = s.opt ∧
      (data.foldl (testBatch sem) (s, m)).1.grad = s.grad := by
  intro data
  induction data with
  | nil => exact fun s m => ⟨rfl, rfl, rfl⟩
  | cons b bs ih =>
    intro s m
    rw [List.foldl_cons]
    exact ih _ _


lemma test_fold_congr {P O A B L M : Type} (sem : Sem P O A B L M) :
    ∀ (data : List (B × L)) (s1 s2 : MState P O A) (m : Mets),
      s1.params = s2.params →
      (data.foldl (testBatch sem) (s1, m)).2 = (data.foldl (testBatch sem) (s2, m)).2 ∧
      (data.foldl (testBatch sem) (s1, m)).1.params =
        (data.foldl (testBatch sem) (s2, m)).1.params := by
  intro data
  induction data with
  | nil => exact fun s1 s2 m hp => ⟨rfl, hp⟩
  | cons b bs ih =>
    intro s1 s2 m hp
    rw [List.foldl_cons, List.foldl_cons]
    have h1 : (testBatch sem (s1, m) b).1.params = (testBatch sem (s2, m) b).1.params := by
      simp [testBatch, hp]
    have h2 : (testBatch sem (s1, m) b).2 = (testBatch sem (s2, m) b).2 := by
      simp [testBatch, hp]
    have e1 : testBatch sem (s1, m) b =
        ((testBatch sem (s1, m) b).1, (testBatch sem (s1, m) b).2) := rfl
    have e2 : testBatch sem (s2, m) b =
        ((testBatch sem (s2, m) b).1, (testBatch sem (s2, m) b).2) := rfl
    rw [e1, e2, h2]
    exact ih _ _ _ h1

/-- C8: the evaluation loop `test` takes no optimizer or scheduler, computes
no gradients, and leaves the model parameters (and the optimizer state and
gradient buffer it threads through) unchanged; invoking it twice consecutively
on the same held-out data returns identical loss and accuracy. -/
theorem C8_test_is_pure {P O A B L M : Type} (sem : Sem P O A B L M)
    (s : MState P O A) (data : List (B × L)) :
    (test sem s data).1.params = s.params ∧
    (test sem s data).1.opt = s.opt ∧
    (test sem s data).1.grad = s.grad ∧
    (test sem (test sem s data).1 data).2 = (test sem s data).2 ∧
    (test sem (test sem s data).1 data).1.params = s.params := by
  obtain ⟨hp, ho, hg⟩ := test_fold_preserves sem data s
    { train_loss := 0, train_n_corrects := 0, train_n_samples := 0 }
  have hps : (test sem s data).1.params = s.params := by simpa [test] using hp
  obtain ⟨hm2, hp2⟩ := test_fold_congr sem data (test sem s data).1 s
    { train_loss := 0, train_n_corrects := 0, train_n_samples := 0 } hps
  refine ⟨hps, by simpa [test] using ho, by simpa [test] using hg, ?_, ?_⟩
  · simp only [test] at hm2 ⊢
    rw [hm2]
  · obtain ⟨hp3, _, _⟩ := test_fold_preserves sem data (test sem s data).1
      { train_loss := 0, train_n_corrects := 0, train_n_samples := 0 }
    have hstep : (test sem (test sem s data).1 data).1.params = (test sem s data).1.params := by
      simpa [test] using hp3
    rw [hstep, hps]

lemma hcm_radius_fold {P O A B L M : Type} [Inhabited A] (sem : Sem P O A B L M)
    (cut_prob : ℚ) (multiplier : ℕ) :
    ∀ (data : List (BatchIn B L)) (st : LState P O A) (r0 : ℕ),
      (data.foldl (hcmBatch sem cut_prob multiplier) (st, r0)).2 =
        ((data.filter (fun b => decide (b.r < cut_prob))).map (fun b => b.stageDraw)).foldl
          (radiusStep sem.numStages) r0 := by
  intro data
  induction data with
  | nil => intro st r0; rfl
  | cons b bs ih =>
    intro st r0
    rw [List.foldl_cons]
    by_cases h : b.r < cut_prob
    · have hstep : hcmBatch sem cut_prob multiplier (st, r0) b =
          ((hcmBatch sem cut_prob multiplier (st, r0) b).1,
            radiusStep sem.numStages r0 b.stageDraw) := by
        refine Prod.ext rfl ?_
        simp [hcmBatch, h]
      rw [hstep, ih, List.filter_cons_of_pos (by simpa using h), List.map_cons,
        List.foldl_cons]
    · have hstep : hcmBatch sem cut_prob multiplier (st, r0) b =
          ((hcmBatch sem cut_prob multiplier (st, r0) b).1, r0) := by
        refine Prod.ext rfl ?_
        simp [hcmBatch, h]
      rw [hstep, ih, List.filter_cons_of_neg (by simpa using h)]

/-- C10: in train_HybridCutMix the `final_radius` variable is threaded across
batch iterations: each augmented batch replaces it by
`radiusStep num_stages final_radius stageDraw` (multiply by
`num_stages - stageDraw`, then integer-divide by 4 when `stageDraw < 3`), and
the value is carried into later iterations, so an epoch's final radius is the
fold of `radiusStep` over the stage draws of its augmented batches — and it
genuinely depends on the earlier augmented batches, not only on the configured
radius and the current draw, as two histories ending in the same draw show. -/
theorem C10_final_radius_carries_across_batches :
    (∀ (P O A B L M : Type) [Inhabited A] (sem : Sem P O A B L M) (cut_prob : ℚ)
      (multiplier radius : ℕ) (p : P) (o : O) (data : List (BatchIn B L)),
      (train_HybridCutMix sem cut_prob radius multiplier p o data).1.2 =
        ((data.filter (fun b => decide (b.r < cut_prob))).map (fun b => b.stageDraw)).foldl
          (radiusStep sem.numStages) radius) ∧
    (train_HybridCutMix demoSem 1 4 1 1 0 [demoIn 0 1, demoIn 0 3]).1.2 ≠
      (train_HybridCutMix demoSem 1 4 1 1 0 [demoIn 0 3]).1.2 := by
  constructor
  · intro P O A B L M _ sem cut_prob multiplier radius p o data
    simpa [train_HybridCutMix] using
      hcm_radius_fold sem cut_prob multiplier data (initLState p o) radius
  · decide
